import Mathlib

/-!
Shallow embedding of the barter-rs market-data normalisation layer:
the Binance futures ticker wire codec (`BinanceTiker`), the canonical
`Tiker` event model, subscription-identity derivation, the conversion
to `MarketIter`, and the stream-aggregation surface.

Machine floats never undergo arithmetic in this code path (string-encoded
numerics are parsed once and then only copied), so `f64` values are
embedded as exact sign/mantissa/exponent decimals (`Decimal`).
`chrono::DateTime<Utc>` is embedded as seconds plus nanoseconds since the
Unix epoch.
-/

/-- `SubscriptionId`: an opaque string-like routing key. -/
abbrev SubscriptionId := String

/-- Uppercase a string character-wise, as Rust's `to_uppercase` does on
the ASCII symbols used by exchange market codes. -/
def toUpperStr (s : String) : String := ⟨s.data.map Char.toUpper⟩

/-- Modelled from the spec: `ExchangeSub` pairs an exchange channel literal
with a market symbol (its definition lives in the `barter-data` subscription
module, outside the visible sources). -/
structure ExchangeSub where
  channel : String
  market : String

/-- Modelled from the spec: `ExchangeSub::id` derives the canonical
`SubscriptionId` of the form `"<channel>|<MARKET>"` with the market
upper-cased (section 3 and 6 of the spec; the implementation lives
outside the visible sources). -/
def ExchangeSub.id (s : ExchangeSub) : SubscriptionId :=
  s.channel ++ "|" ++ toUpperStr s.market

/-- Modelled from the spec: the `BinanceChannel::TICKERS` channel literal,
an exchange-specific literal such as `@tiker` (spec section 3). -/
def BinanceChannel.TICKERS : String := "@tiker"

/-- Embedding of `chrono::DateTime<Utc>`: seconds and subsecond
nanoseconds since the Unix epoch. -/
structure DateTimeUtc where
  secs : Int
  nanos : Nat
deriving DecidableEq, Repr

/-- Total nanoseconds since the epoch represented by a `DateTimeUtc`. -/
def DateTimeUtc.totalNanos (d : DateTimeUtc) : Int :=
  d.secs * 1000000000 + d.nanos

/-- Milliseconds since the epoch represented by a `DateTimeUtc`
(chrono's `timestamp_millis` for non-negative instants). -/
def DateTimeUtc.timestamp_millis (d : DateTimeUtc) : Int :=
  d.secs * 1000 + d.nanos / 1000000

/-- Modelled from the spec: `barter_integration::de::datetime_utc_from_epoch_duration`
applied to a millisecond duration — epoch-ms converts exactly to a UTC
instant (spec 4.3, implementation outside the visible sources). -/
def datetime_utc_from_epoch_ms (ms : Nat) : DateTimeUtc :=
  { secs := (ms / 1000 : Nat), nanos := (ms % 1000) * 1000000 }

/-- JSON value universe for wire payloads.  Numeric literals cover the
integer numerals exercised by this codec (all float-valued fields arrive
string-encoded). -/
inductive Json where
  | null
  | bool (b : Bool)
  | num (n : Int)
  | str (s : String)
  | arr (xs : List Json)
  | obj (fields : List (String × Json))

/-- Decode errors of the wire codec (serde's observable failure modes). -/
inductive DeError where
  | invalidType
  | invalidValue
  | missingField (name : String)
  | duplicateField (name : String)
deriving DecidableEq, Repr

/-- Numeric value of a list of decimal digit characters. -/
def digitsVal (ds : List Char) : Nat :=
  ds.foldl (fun acc c => acc * 10 + (c.toNat - 48)) 0

/-- Exact value of a parsed string-encoded numeric: sign, decimal
mantissa and decimal exponent, denoting `(-1)^neg * mant * 10^exp`.
The codec only parses and copies these values — it never computes with
them — so this exact representation stands in for `f64`. -/
structure Decimal where
  neg : Bool
  mant : Nat
  exp : Int
deriving DecidableEq, Repr

/-- Rational value denoted by a `Decimal` (for stating exactness). -/
def Decimal.toRat (d : Decimal) : Rat :=
  (if d.neg then -1 else 1) * (d.mant : Rat) * (10 : Rat) ^ d.exp

/-- Parse an optional exponent suffix (`e`/`E`, optional sign, digits),
requiring the whole remaining input to be consumed. -/
def parseExpSuffix : List Char → Option Int
  | [] => some 0
  | c :: rest =>
    if c = 'e' ∨ c = 'E' then
      let (sg, r2) : Int × List Char :=
        match rest with
        | '-' :: r => (-1, r)
        | '+' :: r => (1, r)
        | r => (1, r)
      let (ds, r3) := r2.span Char.isDigit
      if ds.isEmpty ∨ ¬ r3.isEmpty then none else some (sg * (digitsVal ds : Int))
    else none

/-- Modelled from the spec: the numeric-string grammar accepted when
coercing a string-encoded numeric field to a float — optional sign,
decimal mantissa, optional exponent; any non-numeric content fails
(spec 4.3; the parser lives in `barter_integration::de`, outside the
visible sources).  The value is kept exact. -/
def parseF64 (s : String) : Option Decimal :=
  let (neg, cs0) : Bool × List Char :=
    match s.data with
    | '-' :: rest => (true, rest)
    | '+' :: rest => (false, rest)
    | cs => (false, cs)
  let (ipart, cs1) := cs0.span Char.isDigit
  let (fpart, cs2) : List Char × List Char :=
    match cs1 with
    | '.' :: rest => rest.span Char.isDigit
    | _ => ([], cs1)
  match parseExpSuffix cs2 with
  | none => none
  | some e =>
    if ipart.isEmpty ∧ fpart.isEmpty then none
    else
      some { neg, mant := digitsVal ipart * 10 ^ fpart.length + digitsVal fpart,
             exp := e - fpart.length }

/-- Modelled from the spec: `barter_integration::de::de_str` specialised to
`f64` — deserialize a JSON string and parse it as a number, failing with a
decode error (not a silent zero) on non-numeric content (spec 4.3). -/
def de_str (j : Json) : Except DeError Decimal :=
  match j with
  | .str s =>
    match parseF64 s with
    | some q => .ok q
    | none => .error .invalidValue
  | _ => .error .invalidType

/-- Deserialize a JSON numeral as a `u64` (integer in `[0, 2^64)`). -/
def de_u64 (j : Json) : Except DeError Nat :=
  match j with
  | .num n => if 0 ≤ n ∧ n < 2 ^ 64 then .ok n.toNat else .error .invalidValue
  | _ => .error .invalidType

/-- Modelled from the spec:
`barter_integration::de::de_u64_epoch_ms_as_datetime_utc` — deserialize a
millisecond epoch integer as an exact UTC timestamp (spec 4.3). -/
def de_u64_epoch_ms_as_datetime_utc (j : Json) : Except DeError DateTimeUtc :=
  (de_u64 j).map datetime_utc_from_epoch_ms

/-- `de_tiker_subscription_id` (src tiker.rs lines 148-154): deserialize the
market symbol string and map it through
`ExchangeSub::from((BinanceChannel::TICKERS, market)).id()`. -/
def de_tiker_subscription_id (j : Json) : Except DeError SubscriptionId :=
  match j with
  | .str market => .ok (ExchangeSub.id ⟨BinanceChannel.TICKERS, market⟩)
  | _ => .error .invalidType

/-- `BinanceTiker` wire record (src tiker.rs lines 53-103), with `f64`
fields embedded as exact rationals. -/
structure BinanceTiker where
  subscription_id : SubscriptionId
  price_change : Decimal
  price_change_percent : Decimal
  weighted_avg_price : Decimal
  last_price : Decimal
  last_qty : Decimal
  open_price : Decimal
  high_price : Decimal
  low_price : Decimal
  volume : Decimal
  quote_volume : Decimal
  open_time : DateTimeUtc
  close_time : DateTimeUtc
  first_id : Nat
  last_id : Nat
  count : Nat
deriving DecidableEq, Repr

/-- The `(long name, serde alias)` key pairs of the sixteen required
`BinanceTiker` fields, in declaration order. -/
def requiredKeys : List (String × String) :=
  [("subscription_id", "s"), ("price_change", "p"), ("price_change_percent", "P"),
   ("weighted_avg_price", "w"), ("last_price", "c"), ("last_qty", "Q"),
   ("open_price", "o"), ("high_price", "h"), ("low_price", "l"),
   ("volume", "v"), ("quote_volume", "q"), ("open_time", "O"), ("close_time", "C"),
   ("first_id", "F"), ("last_id", "L"), ("count", "n")]

/-- All key strings the derived deserializer recognises. -/
def recognizedKeys : List String :=
  requiredKeys.foldr (fun p acc => p.1 :: p.2 :: acc) []

/-- Values carried by object entries whose key is the field's long name or
its serde alias. -/
def findKeys (fs : List (String × Json)) (n a : String) : List Json :=
  fs.filterMap (fun kv => if kv.1 = n ∨ kv.1 = a then some kv.2 else none)

/-- Fetch a required field by long name `n` or alias `a`: absence is a
missing-field error, more than one occurrence a duplicate-field error
(serde's derived-deserializer semantics). -/
def getField (fs : List (String × Json)) (n a : String) : Except DeError Json :=
  match findKeys fs n a with
  | [] => .error (.missingField n)
  | [v] => .ok v
  | _ :: _ :: _ => .error (.duplicateField n)

/-- The derived serde deserializer for `BinanceTiker` (src tiker.rs lines
53-103): every field is accepted under its long name or its alias, each
field value goes through its `deserialize_with` helper, unknown keys are
ignored, and any failure aborts the whole decode. -/
def decodeBinanceTiker (j : Json) : Except DeError BinanceTiker :=
  match j with
  | .obj fs => do
    let subscription_id ← getField fs "subscription_id" "s" >>= de_tiker_subscription_id
    let price_change ← getField fs "price_change" "p" >>= de_str
    let price_change_percent ← getField fs "price_change_percent" "P" >>= de_str
    let weighted_avg_price ← getField fs "weighted_avg_price" "w" >>= de_str
    let last_price ← getField fs "last_price" "c" >>= de_str
    let last_qty ← getField fs "last_qty" "Q" >>= de_str
    let open_price ← getField fs "open_price" "o" >>= de_str
    let high_price ← getField fs "high_price" "h" >>= de_str
    let low_price ← getField fs "low_price" "l" >>= de_str
    let volume ← getField fs "volume" "v" >>= de_str
    let quote_volume ← getField fs "quote_volume" "q" >>= de_str
    let open_time ← getField fs "open_time" "O" >>= de_u64_epoch_ms_as_datetime_utc
    let close_time ← getField fs "close_time" "C" >>= de_u64_epoch_ms_as_datetime_utc
    let first_id ← getField fs "first_id" "F" >>= de_u64
    let last_id ← getField fs "last_id" "L" >>= de_u64
    let count ← getField fs "count" "n" >>= de_u64
    pure { subscription_id, price_change, price_change_percent, weighted_avg_price,
           last_price, last_qty, open_price, high_price, low_price, volume,
           quote_volume, open_time, close_time, first_id, last_id, count }
  | _ => .error .invalidType

/-- `Identifier<Option<SubscriptionId>> for BinanceTiker` (src tiker.rs
lines 105-109). -/
def BinanceTiker.id (t : BinanceTiker) : Option SubscriptionId :=
  some t.subscription_id

/-- `Tikers` subscription-kind marker (src subscription/tiker.rs lines
7-16): zero-data tag whose stable name is `"tikers"`. -/
structure Tikers where
deriving DecidableEq, Repr

/-- `SubscriptionKind::as_str` for `Tikers`. -/
def Tikers.as_str (_ : Tikers) : String := "tikers"

/-- Normalised Barter `Tiker` canonical model (src subscription/tiker.rs
lines 19-45). -/
structure Tiker where
  price_change : Decimal
  price_change_percent : Decimal
  weighted_avg_price : Decimal
  last_qty : Decimal
  open_ : Decimal
  high : Decimal
  low : Decimal
  last_price : Decimal
  volume : Decimal
  quote_volume : Decimal
  open_time : DateTimeUtc
  close_time : DateTimeUtc
  first_id : Nat
  last_id : Nat
  count : Nat
deriving DecidableEq, Repr

/-- `ExchangeId` variants relevant to the visible sources. -/
inductive ExchangeId where
  | BinanceFuturesUsd
  | BinanceSpot
deriving DecidableEq, Repr

/-- Stable name of an `ExchangeId`. -/
def ExchangeId.as_str : ExchangeId → String
  | .BinanceFuturesUsd => "binance_futures_usd"
  | .BinanceSpot => "binance_spot"

/-- `Exchange` identity newtype; `Exchange::from(exchange_id)` wraps the
id's stable name. -/
structure Exchange where
  name : String
deriving DecidableEq, Repr

/-- `Exchange::from(ExchangeId)`. -/
def Exchange.fromId (e : ExchangeId) : Exchange := ⟨e.as_str⟩

/-- `MarketEvent` canonical envelope: exchange-reported time, local
arrival time, exchange identity, instrument identity and kind payload. -/
structure MarketEvent (InstrumentId Kind : Type) where
  exchange_time : DateTimeUtc
  received_time : DateTimeUtc
  exchange : Exchange
  instrument : InstrumentId
  kind : Kind
deriving DecidableEq, Repr

/-- Conversion errors (`DataError`); the ticker conversion never produces
one, but the `MarketIter` shape carries the possibility. -/
inductive DataError where
  | generic
deriving DecidableEq, Repr

/-- `MarketIter<InstrumentId, Kind>`: a sequence of conversion results. -/
def MarketIter (InstrumentId Kind : Type) : Type :=
  List (Except DataError (MarketEvent InstrumentId Kind))

/-- `impl From<(ExchangeId, InstrumentId, BinanceTiker)> for
MarketIter<InstrumentId, Tiker>` (src tiker.rs lines 111-144).  The call
to `Utc::now()` is the only effect of the conversion; it is embedded as
the explicit clock-sample argument `now`. -/
def MarketIter.from_tiker {InstrumentId : Type} (now : DateTimeUtc)
    (exchange_id : ExchangeId) (instrument : InstrumentId)
    (tiker : BinanceTiker) : MarketIter InstrumentId Tiker :=
  [Except.ok
    { exchange_time := tiker.close_time
      received_time := now
      exchange := Exchange.fromId exchange_id
      instrument := instrument
      kind :=
        { price_change := tiker.price_change
          price_change_percent := tiker.price_change_percent
          weighted_avg_price := tiker.weighted_avg_price
          last_qty := tiker.last_qty
          open_ := tiker.open_price
          high := tiker.high_price
          low := tiker.low_price
          last_price := tiker.last_price
          volume := tiker.volume
          quote_volume := tiker.quote_volume
          open_time := tiker.open_time
          close_time := tiker.close_time
          first_id := tiker.first_id
          last_id := tiker.last_id
          count := tiker.count } }]

/-- An interleaving of two sequences preserving each one's internal
order: the arrival-order merge of two independent sources. -/
inductive Interleave {α : Type} : List α → List α → List α → Prop where
  | nil : Interleave [] [] []
  | left {x : α} {xs ys zs : List α} :
      Interleave xs ys zs → Interleave (x :: xs) ys (x :: zs)
  | right {y : α} {xs ys zs : List α} :
      Interleave xs ys zs → Interleave xs (y :: ys) (y :: zs)

/-- Arrival-order merge of three independent sources. -/
def Interleave3 {α : Type} (s1 s2 s3 m : List α) : Prop :=
  ∃ m12, Interleave s1 s2 m12 ∧ Interleave m12 s3 m

/-- The Ok items of a result sequence, in order. -/
def okItems {E A : Type} (xs : List (Except E A)) : List A :=
  xs.filterMap fun x => match x with | .ok a => some a | .error _ => none

/-- The error items of a result sequence, in order. -/
def errItems {E A : Type} (xs : List (Except E A)) : List E :=
  xs.filterMap fun x => match x with | .ok _ => none | .error e => some e

/-- Modelled from the spec: `with_error_handler` (used in
examples/tiker_stream_exchange.rs lines 48-54; implementation outside the
visible sources) — every error item invokes the attached handler once as
a side effect and is dropped from the merged output; Ok items pass
through; the sequence ends only when the merged input ends.  Returns the
yielded events and the handler-invocation log. -/
def with_error_handler {E A H : Type} (handler : E → H)
    (merged : List (Except E A)) : List A × List H :=
  (okItems merged, (errItems merged).map handler)

/-- Modelled from the spec: the `Streams` builder accumulates one batch
of subscription tuples per `subscribe` call (spec 4.5; implementation
outside the visible sources). -/
structure StreamBuilder (Sub : Type) where
  batches : List (List Sub)

/-- Modelled from the spec: `Streams::builder()` — no batches yet. -/
def StreamBuilder.builder {Sub : Type} : StreamBuilder Sub := ⟨[]⟩

/-- Modelled from the spec: one underlying transport connection and the
subscription tuples it serves. -/
structure Connection (Sub : Type) where
  subs : List Sub

/-- Modelled from the spec: `StreamBuilder::subscribe` appends one batch;
each call requests one underlying connection for the tuples it supplies
(spec 4.5). -/
def StreamBuilder.subscribe {Sub : Type} (b : StreamBuilder Sub)
    (subs : List Sub) : StreamBuilder Sub :=
  ⟨b.batches ++ [subs]⟩

/-- Modelled from the spec: `StreamBuilder::init` opens exactly one
connection per accumulated batch (spec 4.5). -/
def StreamBuilder.init {Sub : Type} (b : StreamBuilder Sub) :
    List (Connection Sub) :=
  b.batches.map Connection.mk

instance {E A : Type} [DecidableEq E] [DecidableEq A] : DecidableEq (Except E A) :=
  fun x y =>
    match x, y with
    | .error e, .error f =>
      if h : e = f then .isTrue (h ▸ rfl)
      else .isFalse fun hh => h (Except.error.inj hh)
    | .ok a, .ok b =>
      if h : a = b then .isTrue (h ▸ rfl)
      else .isFalse fun hh => h (Except.ok.inj hh)
    | .error _, .ok _ => .isFalse fun hh => Except.noConfusion hh
    | .ok _, .error _ => .isFalse fun hh => Except.noConfusion hh

example : parseF64 "10000.19" = some ⟨false, 1000019, -2⟩ := by decide
example : parseF64 "not-a-number" = none := by decide
example : parseF64 "-1.5e2" = some ⟨true, 15, 1⟩ := by decide
example : parseF64 "" = none := by decide
example : parseF64 "." = none := by decide
example : toUpperStr "ethusdt" = "ETHUSDT" := by decide
example : Decimal.toRat ⟨false, 1000019, -2⟩ = 1000019 / 100 := by
  norm_num [Decimal.toRat]

lemma string_append_data (a b : String) : (a ++ b).data = a.data ++ b.data := rfl

lemma pipe_split : ∀ (l1 l2 r1 r2 : List Char), '|' ∉ l1 → '|' ∉ l2 →
    l1 ++ '|' :: r1 = l2 ++ '|' :: r2 → l1 = l2 ∧ r1 = r2 := by
  intro l1
  induction l1 with
  | nil =>
    intro l2 r1 r2 _ h2 h
    cases l2 with
    | nil => simpa using h
    | cons c cs =>
      simp at h
      obtain ⟨hc, -⟩ := h
      subst hc
      exact absurd (List.mem_cons_self _ _) h2
  | cons c cs ih =>
    intro l2 r1 r2 h1 h2 h
    cases l2 with
    | nil =>
      simp at h
      obtain ⟨hc, -⟩ := h
      subst hc
      exact absurd (List.mem_cons_self _ _) h1
    | cons d ds =>
      simp at h
      obtain ⟨rfl, htail⟩ := h
      have := ih ds r1 r2 (fun hm => h1 (List.mem_cons_of_mem _ hm))
        (fun hm => h2 (List.mem_cons_of_mem _ hm)) htail
      exact ⟨by rw [this.1], this.2⟩

/-- Claim C3: the `SubscriptionId` derived by the codec from a channel and
a market symbol has the canonical textual form `"<channel>|<MARKET>"`:
the channel literal, a pipe separator, then the upper-cased market
symbol, for every input symbol. -/
theorem subscription_id_canonical_form :
    (∀ c m : String, ExchangeSub.id ⟨c, m⟩ = c ++ "|" ++ toUpperStr m)
    ∧ (∀ s : String,
        de_tiker_subscription_id (.str s) =
          .ok (BinanceChannel.TICKERS ++ "|" ++ toUpperStr s)) :=
  ⟨fun _ _ => rfl, fun _ => rfl⟩

/-- Claim C4 counterexample: subscription-identity derivation is not
injective on raw `(channel, symbol)` pairs — the two distinct pairs
`(@tiker, "ethusdt")` and `(@tiker, "ETHUSDT")` derive the same
`SubscriptionId`, as case-insensitivity forces. -/
theorem subscription_id_collision_counterexample :
    ExchangeSub.id ⟨BinanceChannel.TICKERS, "ethusdt"⟩ =
      ExchangeSub.id ⟨BinanceChannel.TICKERS, "ETHUSDT"⟩
    ∧ ("ethusdt" : String) ≠ "ETHUSDT" := by
  constructor
  · decide
  · decide

/-- Claim C4 (amended): subscription-identity derivation is a pure
function of `(channel, symbol)` — case-insensitive on the symbol, stable
across repeated calls — and, for channels that do not contain the pipe
separator, no two `(channel, symbol)` pairs that differ other than in
symbol case map to the same `SubscriptionId`. -/
theorem subscription_id_pure_and_injective :
    (∀ c s t : String, toUpperStr s = toUpperStr t →
        ExchangeSub.id ⟨c, s⟩ = ExchangeSub.id ⟨c, t⟩)
    ∧ (∀ c s : String, ExchangeSub.id ⟨c, s⟩ = ExchangeSub.id ⟨c, s⟩)
    ∧ (∀ c1 c2 s1 s2 : String, '|' ∉ c1.data → '|' ∉ c2.data →
        ExchangeSub.id ⟨c1, s1⟩ = ExchangeSub.id ⟨c2, s2⟩ →
        c1 = c2 ∧ toUpperStr s1 = toUpperStr s2) := by
  refine ⟨fun c s t h => by simp [ExchangeSub.id, h], fun _ _ => rfl, ?_⟩
  intro c1 c2 s1 s2 h1 h2 h
  have hd : c1.data ++ '|' :: (toUpperStr s1).data =
      c2.data ++ '|' :: (toUpperStr s2).data := by
    have := congrArg String.data h
    simpa [ExchangeSub.id, string_append_data] using this
  obtain ⟨hc, hs⟩ := pipe_split _ _ _ _ h1 h2 hd
  exact ⟨String.ext hc, String.ext hs⟩

/-- Claim C5: millisecond-epoch deserialization into UTC timestamps is
exact — for every `u64` epoch-ms value the resulting instant denotes
exactly that many milliseconds (in nanoseconds, `ms * 10^6`, with no
rounding loss), converting back to epoch milliseconds recovers the
original value, and the field deserializer maps the numeral to exactly
this instant. -/
theorem epoch_ms_conversion_exact : ∀ ms : Nat, ms < 2 ^ 64 →
    (datetime_utc_from_epoch_ms ms).totalNanos = (ms : Int) * 1000000
    ∧ (datetime_utc_from_epoch_ms ms).timestamp_millis = (ms : Int)
    ∧ de_u64_epoch_ms_as_datetime_utc (.num (ms : Int)) =
        .ok (datetime_utc_from_epoch_ms ms) := by
  intro ms hms
  refine ⟨?_, ?_, ?_⟩
  · simp only [datetime_utc_from_epoch_ms, DateTimeUtc.totalNanos]
    push_cast
    omega
  · simp only [datetime_utc_from_epoch_ms, DateTimeUtc.timestamp_millis]
    push_cast
    omega
  · have h0 : (0 : Int) ≤ (ms : Int) := Int.natCast_nonneg ms
    have h1 : (ms : Int) < 2 ^ 64 := by exact_mod_cast hms
    simp only [de_u64_epoch_ms_as_datetime_utc, de_u64, h0, h1]
    simp [Except.map]

/-- Witness for C5 at the spec's illustrative epoch-ms value. -/
theorem epoch_ms_conversion_exact_witness :
    (1749354825200 : Nat) < 2 ^ 64
    ∧ ((datetime_utc_from_epoch_ms 1749354825200).totalNanos =
          (1749354825200 : Int) * 1000000
       ∧ (datetime_utc_from_epoch_ms 1749354825200).timestamp_millis =
          (1749354825200 : Int)
       ∧ de_u64_epoch_ms_as_datetime_utc (.num (1749354825200 : Int)) =
          .ok (datetime_utc_from_epoch_ms 1749354825200)) :=
  ⟨by norm_num, epoch_ms_conversion_exact 1749354825200 (by norm_num)⟩

/-- Claim C6: conversion of a `BinanceTiker` performs no I/O other than
sampling the local clock for `received_time` — two runs on the same
`(exchange_id, instrument, record)` with different clock samples yield
single events agreeing on `exchange_time`, `exchange`, `instrument` and
the whole `kind` payload, while each run's `received_time` is its own
clock sample. -/
theorem conversion_pure_up_to_received_time :
    ∀ {I : Type} (now1 now2 : DateTimeUtc) (eid : ExchangeId) (ins : I)
      (t : BinanceTiker),
      ∃ e1 e2, MarketIter.from_tiker now1 eid ins t = [Except.ok e1]
        ∧ MarketIter.from_tiker now2 eid ins t = [Except.ok e2]
        ∧ e1.exchange_time = e2.exchange_time
        ∧ e1.exchange = e2.exchange
        ∧ e1.instrument = e2.instrument
        ∧ e1.kind = e2.kind
        ∧ e1.received_time = now1
        ∧ e2.received_time = now2 := by
  intro I now1 now2 eid ins t
  exact ⟨_, _, rfl, rfl, rfl, rfl, rfl, rfl, rfl, rfl⟩

/-- Claim C8: the stream builder opens exactly one underlying connection
per subscribe call — the batch supplied in a single call shares one
connection, and repeating the same batch in a second call yields a second
distinct connection. -/
theorem stream_builder_one_connection_per_call :
    ∀ {Sub : Type} (b : StreamBuilder Sub) (ts : List Sub),
      (b.subscribe ts).init = b.init ++ [⟨ts⟩]
      ∧ (b.subscribe ts).init.length = b.init.length + 1
      ∧ ((b.subscribe ts).subscribe ts).init.length = b.init.length + 2 := by
  intro Sub b ts
  refine ⟨?_, ?_, ?_⟩ <;> simp [StreamBuilder.subscribe, StreamBuilder.init]

/-- Claim C9: `Identifier::id` for `BinanceTiker` always returns
`Some subscription_id` — never `None` — and that id equals the record's
`subscription_id` field derived at deserialization time. -/
theorem binance_tiker_id_total :
    ∀ t : BinanceTiker,
      BinanceTiker.id t = some t.subscription_id
      ∧ BinanceTiker.id t ≠ none := by
  intro t
  exact ⟨rfl, by simp [BinanceTiker.id]⟩

/-- Illustrative valid wire payload using the exchange's short keys,
including the unknown extra keys `e`, `E` and `t` that the codec must
ignore (spec section 6). -/
def tikerPayloadFull : List (String × Json) :=
  [("e", .str "24hrTicker"), ("E", .num 1649324825173), ("t", .num 1000000000),
   ("s", .str "ETHUSDT"), ("p", .str "10000.19"), ("P", .str "0.5"),
   ("w", .str "9500.1"), ("c", .str "10010.0"), ("Q", .str "0.239"),
   ("o", .str "9000.0"), ("h", .str "10100.5"), ("l", .str "8900.25"),
   ("v", .str "12345.6"), ("q", .str "117000000.9"),
   ("O", .num 1649324825173), ("C", .num 1749354825200),
   ("F", .num 1), ("L", .num 2), ("n", .num 3)]

/-- The same payload spelled with every field's long semantic name. -/
def tikerPayloadLongKeys : List (String × Json) :=
  [("subscription_id", .str "ETHUSDT"), ("price_change", .str "10000.19"),
   ("price_change_percent", .str "0.5"), ("weighted_avg_price", .str "9500.1"),
   ("last_price", .str "10010.0"), ("last_qty", .str "0.239"),
   ("open_price", .str "9000.0"), ("high_price", .str "10100.5"),
   ("low_price", .str "8900.25"), ("volume", .str "12345.6"),
   ("quote_volume", .str "117000000.9"), ("open_time", .num 1649324825173),
   ("close_time", .num 1749354825200), ("first_id", .num 1),
   ("last_id", .num 2), ("count", .num 3)]

/-- The record `tikerPayloadFull` (and `tikerPayloadLongKeys`) decodes to. -/
def tikerRecordFull : BinanceTiker :=
  { subscription_id := "@tiker|ETHUSDT"
    price_change := ⟨false, 1000019, -2⟩
    price_change_percent := ⟨false, 5, -1⟩
    weighted_avg_price := ⟨false, 95001, -1⟩
    last_price := ⟨false, 100100, -1⟩
    last_qty := ⟨false, 239, -3⟩
    open_price := ⟨false, 90000, -1⟩
    high_price := ⟨false, 101005, -1⟩
    low_price := ⟨false, 890025, -2⟩
    volume := ⟨false, 123456, -1⟩
    quote_volume := ⟨false, 1170000009, -1⟩
    open_time := ⟨1649324825, 173000000⟩
    close_time := ⟨1749354825, 200000000⟩
    first_id := 1
    last_id := 2
    count := 3 }

/-- `tikerPayloadFull` with the required numeric field `p` carrying
non-numeric content. -/
def tikerPayloadBadP : List (String × Json) :=
  [("s", .str "ETHUSDT"), ("p", .str "not-a-number"), ("P", .str "0.5"),
   ("w", .str "9500.1"), ("c", .str "10010.0"), ("Q", .str "0.239"),
   ("o", .str "9000.0"), ("h", .str "10100.5"), ("l", .str "8900.25"),
   ("v", .str "12345.6"), ("q", .str "117000000.9"),
   ("O", .num 1649324825173), ("C", .num 1749354825200),
   ("F", .num 1), ("L", .num 2), ("n", .num 3)]

/-- `tikerPayloadFull` with the required string field `p` carrying a
JSON numeral instead of a string (a type mismatch for `de_str`). -/
def tikerPayloadWrongTypeP : List (String × Json) :=
  [("s", .str "ETHUSDT"), ("p", .num 10000), ("P", .str "0.5"),
   ("w", .str "9500.1"), ("c", .str "10010.0"), ("Q", .str "0.239"),
   ("o", .str "9000.0"), ("h", .str "10100.5"), ("l", .str "8900.25"),
   ("v", .str "12345.6"), ("q", .str "117000000.9"),
   ("O", .num 1649324825173), ("C", .num 1749354825200),
   ("F", .num 1), ("L", .num 2), ("n", .num 3)]

lemma except_bind_ok {E α β : Type} {x : Except E α} {f : α → Except E β} {b : β}
    (h : x >>= f = Except.ok b) : ∃ a, x = Except.ok a ∧ f a = Except.ok b := by
  cases x with
  | error e => simp [Bind.bind, Except.bind] at h
  | ok a => exact ⟨a, rfl, h⟩

lemma getField_ok_present {fs : List (String × Json)} {n a : String} {v : Json}
    (h : getField fs n a = .ok v) : ∃ kv ∈ fs, kv.1 = n ∨ kv.1 = a := by
  by_contra hc
  push_neg at hc
  have hnil : findKeys fs n a = [] := by
    apply List.filterMap_eq_nil_iff.mpr
    intro kv hkv
    rcases hc kv hkv with ⟨h1, h2⟩
    simp [h1, h2]
  simp [getField, hnil] at h

lemma findKeys_middle (fs1 fs2 : List (String × Json)) (k : String) (v : Json)
    (n a : String) (h1 : k ≠ n) (h2 : k ≠ a) :
    findKeys (fs1 ++ (k, v) :: fs2) n a = findKeys (fs1 ++ fs2) n a := by
  simp [findKeys, List.filterMap_append, List.filterMap_cons, h1, h2]

lemma getField_middle (fs1 fs2 : List (String × Json)) (k : String) (v : Json)
    (n a : String) (h1 : k ≠ n) (h2 : k ≠ a) :
    getField (fs1 ++ (k, v) :: fs2) n a = getField (fs1 ++ fs2) n a := by
  unfold getField
  rw [findKeys_middle fs1 fs2 k v n a h1 h2]

lemma findKeys_swap_mid (fs1 fs2 : List (String × Json)) (k1 k2 : String)
    (v : Json) (n a : String) (h : (k1 = n ∨ k1 = a) ↔ (k2 = n ∨ k2 = a)) :
    findKeys (fs1 ++ (k1, v) :: fs2) n a = findKeys (fs1 ++ (k2, v) :: fs2) n a := by
  by_cases hk : k1 = n ∨ k1 = a
  · simp [findKeys, List.filterMap_append, List.filterMap_cons, hk, h.mp hk]
  · have hk2 : ¬ (k2 = n ∨ k2 = a) := fun hh => hk (h.mpr hh)
    simp [findKeys, List.filterMap_append, List.filterMap_cons, hk, hk2]

lemma getField_swap_mid (fs1 fs2 : List (String × Json)) (k1 k2 : String)
    (v : Json) (n a : String) (h : (k1 = n ∨ k1 = a) ↔ (k2 = n ∨ k2 = a)) :
    getField (fs1 ++ (k1, v) :: fs2) n a = getField (fs1 ++ (k2, v) :: fs2) n a := by
  unfold getField
  rw [findKeys_swap_mid fs1 fs2 k1 k2 v n a h]

lemma requiredKeys_in_recognized :
    ∀ p ∈ requiredKeys, p.1 ∈ recognizedKeys ∧ p.2 ∈ recognizedKeys := by decide

lemma alias_keys_compatible :
    ∀ p ∈ requiredKeys, ∀ q ∈ requiredKeys,
      ((p.1 = q.1 ∨ p.1 = q.2) ↔ (p.2 = q.1 ∨ p.2 = q.2)) := by decide

lemma decode_congr {A B : List (String × Json)}
    (hAB : ∀ p ∈ requiredKeys, getField A p.1 p.2 = getField B p.1 p.2) :
    decodeBinanceTiker (.obj A) = decodeBinanceTiker (.obj B) := by
  have e1 : getField A "subscription_id" "s" = getField B "subscription_id" "s" :=
    hAB ("subscription_id", "s") (by decide)
  have e2 : getField A "price_change" "p" = getField B "price_change" "p" :=
    hAB ("price_change", "p") (by decide)
  have e3 : getField A "price_change_percent" "P" = getField B "price_change_percent" "P" :=
    hAB ("price_change_percent", "P") (by decide)
  have e4 : getField A "weighted_avg_price" "w" = getField B "weighted_avg_price" "w" :=
    hAB ("weighted_avg_price", "w") (by decide)
  have e5 : getField A "last_price" "c" = getField B "last_price" "c" :=
    hAB ("last_price", "c") (by decide)
  have e6 : getField A "last_qty" "Q" = getField B "last_qty" "Q" :=
    hAB ("last_qty", "Q") (by decide)
  have e7 : getField A "open_price" "o" = getField B "open_price" "o" :=
    hAB ("open_price", "o") (by decide)
  have e8 : getField A "high_price" "h" = getField B "high_price" "h" :=
    hAB ("high_price", "h") (by decide)
  have e9 : getField A "low_price" "l" = getField B "low_price" "l" :=
    hAB ("low_price", "l") (by decide)
  have e10 : getField A "volume" "v" = getField B "volume" "v" :=
    hAB ("volume", "v") (by decide)
  have e11 : getField A "quote_volume" "q" = getField B "quote_volume" "q" :=
    hAB ("quote_volume", "q") (by decide)
  have e12 : getField A "open_time" "O" = getField B "open_time" "O" :=
    hAB ("open_time", "O") (by decide)
  have e13 : getField A "close_time" "C" = getField B "close_time" "C" :=
    hAB ("close_time", "C") (by decide)
  have e14 : getField A "first_id" "F" = getField B "first_id" "F" :=
    hAB ("first_id", "F") (by decide)
  have e15 : getField A "last_id" "L" = getField B "last_id" "L" :=
    hAB ("last_id", "L") (by decide)
  have e16 : getField A "count" "n" = getField B "count" "n" :=
    hAB ("count", "n") (by decide)
  simp only [decodeBinanceTiker, e1, e2, e3, e4, e5, e6, e7, e8, e9, e10, e11,
    e12, e13, e14, e15, e16]

/-- Claim C1: for every successfully deserialized `BinanceTiker` wire
record, converting `(exchange_id, instrument, record)` into `MarketIter`
yields exactly one element, that element is Ok, and the canonical event's
fields follow the fixed schema mapping — all fifteen payload fields are
copied unchanged from the wire record and the event's `exchange_time`
equals the wire record's `close_time`. -/
theorem decode_convert_one_event :
    ∀ {I : Type} (j : Json) (r : BinanceTiker) (now : DateTimeUtc)
      (eid : ExchangeId) (ins : I),
      decodeBinanceTiker j = .ok r →
      ∃ ev, MarketIter.from_tiker now eid ins r = [Except.ok ev]
        ∧ ev.exchange_time = r.close_time
        ∧ ev.kind.price_change = r.price_change
        ∧ ev.kind.price_change_percent = r.price_change_percent
        ∧ ev.kind.weighted_avg_price = r.weighted_avg_price
        ∧ ev.kind.last_price = r.last_price
        ∧ ev.kind.last_qty = r.last_qty
        ∧ ev.kind.open_ = r.open_price
        ∧ ev.kind.high = r.high_price
        ∧ ev.kind.low = r.low_price
        ∧ ev.kind.volume = r.volume
        ∧ ev.kind.quote_volume = r.quote_volume
        ∧ ev.kind.open_time = r.open_time
        ∧ ev.kind.close_time = r.close_time
        ∧ ev.kind.first_id = r.first_id
        ∧ ev.kind.last_id = r.last_id
        ∧ ev.kind.count = r.count := by
  intro I j r now eid ins _
  exact ⟨_, rfl, rfl, rfl, rfl, rfl, rfl, rfl, rfl, rfl, rfl, rfl, rfl, rfl,
    rfl, rfl, rfl, rfl⟩

/-- Witness for C1: the illustrative payload decodes to `tikerRecordFull`
and converts to exactly one Ok event with the schema mapping. -/
theorem decode_convert_one_event_witness :
    decodeBinanceTiker (.obj tikerPayloadFull) = .ok tikerRecordFull
    ∧ (∃ ev, MarketIter.from_tiker ⟨0, 0⟩ ExchangeId.BinanceFuturesUsd (0 : Nat)
          tikerRecordFull = [Except.ok ev]
        ∧ ev.exchange_time = tikerRecordFull.close_time
        ∧ ev.kind.price_change = tikerRecordFull.price_change
        ∧ ev.kind.price_change_percent = tikerRecordFull.price_change_percent
        ∧ ev.kind.weighted_avg_price = tikerRecordFull.weighted_avg_price
        ∧ ev.kind.last_price = tikerRecordFull.last_price
        ∧ ev.kind.last_qty = tikerRecordFull.last_qty
        ∧ ev.kind.open_ = tikerRecordFull.open_price
        ∧ ev.kind.high = tikerRecordFull.high_price
        ∧ ev.kind.low = tikerRecordFull.low_price
        ∧ ev.kind.volume = tikerRecordFull.volume
        ∧ ev.kind.quote_volume = tikerRecordFull.quote_volume
        ∧ ev.kind.open_time = tikerRecordFull.open_time
        ∧ ev.kind.close_time = tikerRecordFull.close_time
        ∧ ev.kind.first_id = tikerRecordFull.first_id
        ∧ ev.kind.last_id = tikerRecordFull.last_id
        ∧ ev.kind.count = tikerRecordFull.count) :=
  ⟨by decide,
   decode_convert_one_event (.obj tikerPayloadFull) tikerRecordFull ⟨0, 0⟩
     ExchangeId.BinanceFuturesUsd (0 : Nat) (by decide)⟩

/-- Claim C2: deserialization of a `BinanceTiker` fails as a whole — the
result is always either a fully populated record or an error, never a
partial record; any successful decode required every one of the sixteen
fields to be present (so a missing required field fails the decode); a
required numeric field carrying a non-numeric string (`"p":"not-a-number"`)
fails the decode, as does a type-mismatched field. -/
theorem decode_all_or_nothing :
    (∀ j : Json, (∃ r, decodeBinanceTiker j = .ok r)
      ∨ (∃ e, decodeBinanceTiker j = .error e))
    ∧ (∀ (fs : List (String × Json)) (r : BinanceTiker),
        decodeBinanceTiker (.obj fs) = .ok r →
        ∀ p ∈ requiredKeys, ∃ kv ∈ fs, kv.1 = p.1 ∨ kv.1 = p.2)
    ∧ decodeBinanceTiker (.obj tikerPayloadBadP) = .error .invalidValue
    ∧ decodeBinanceTiker (.obj tikerPayloadWrongTypeP) = .error .invalidType := by
  refine ⟨?_, ?_, by decide, by decide⟩
  · intro j
    cases h : decodeBinanceTiker j with
    | ok r => exact .inl ⟨r, rfl⟩
    | error e => exact .inr ⟨e, rfl⟩
  · intro fs r h p hp
    simp only [decodeBinanceTiker] at h
    obtain ⟨v1, h1, h⟩ := except_bind_ok h
    obtain ⟨j1, hg1, -⟩ := except_bind_ok h1
    obtain ⟨v2, h2, h⟩ := except_bind_ok h
    obtain ⟨j2, hg2, -⟩ := except_bind_ok h2
    obtain ⟨v3, h3, h⟩ := except_bind_ok h
    obtain ⟨j3, hg3, -⟩ := except_bind_ok h3
    obtain ⟨v4, h4, h⟩ := except_bind_ok h
    obtain ⟨j4, hg4, -⟩ := except_bind_ok h4
    obtain ⟨v5, h5, h⟩ := except_bind_ok h
    obtain ⟨j5, hg5, -⟩ := except_bind_ok h5
    obtain ⟨v6, h6, h⟩ := except_bind_ok h
    obtain ⟨j6, hg6, -⟩ := except_bind_ok h6
    obtain ⟨v7, h7, h⟩ := except_bind_ok h
    obtain ⟨j7, hg7, -⟩ := except_bind_ok h7
    obtain ⟨v8, h8, h⟩ := except_bind_ok h
    obtain ⟨j8, hg8, -⟩ := except_bind_ok h8
    obtain ⟨v9, h9, h⟩ := except_bind_ok h
    obtain ⟨j9, hg9, -⟩ := except_bind_ok h9
    obtain ⟨v10, h10, h⟩ := except_bind_ok h
    obtain ⟨j10, hg10, -⟩ := except_bind_ok h10
    obtain ⟨v11, h11, h⟩ := except_bind_ok h
    obtain ⟨j11, hg11, -⟩ := except_bind_ok h11
    obtain ⟨v12, h12, h⟩ := except_bind_ok h
    obtain ⟨j12, hg12, -⟩ := except_bind_ok h12
    obtain ⟨v13, h13, h⟩ := except_bind_ok h
    obtain ⟨j13, hg13, -⟩ := except_bind_ok h13
    obtain ⟨v14, h14, h⟩ := except_bind_ok h
    obtain ⟨j14, hg14, -⟩ := except_bind_ok h14
    obtain ⟨v15, h15, h⟩ := except_bind_ok h
    obtain ⟨j15, hg15, -⟩ := except_bind_ok h15
    obtain ⟨v16, h16, h⟩ := except_bind_ok h
    obtain ⟨j16, hg16, -⟩ := except_bind_ok h16
    simp only [requiredKeys, List.mem_cons, List.not_mem_nil, or_false] at hp
    rcases hp with rfl | rfl | rfl | rfl | rfl | rfl | rfl | rfl | rfl | rfl |
      rfl | rfl | rfl | rfl | rfl | rfl
    · exact getField_ok_present hg1
    · exact getField_ok_present hg2
    · exact getField_ok_present hg3
    · exact getField_ok_present hg4
    · exact getField_ok_present hg5
    · exact getField_ok_present hg6
    · exact getField_ok_present hg7
    · exact getField_ok_present hg8
    · exact getField_ok_present hg9
    · exact getField_ok_present hg10
    · exact getField_ok_present hg11
    · exact getField_ok_present hg12
    · exact getField_ok_present hg13
    · exact getField_ok_present hg14
    · exact getField_ok_present hg15
    · exact getField_ok_present hg16

/-- Witness for C2: a successful decode of the illustrative payload, and
the key-presence consequence instantiated at the `price_change`/`p`
field. -/
theorem decode_all_or_nothing_witness :
    decodeBinanceTiker (.obj tikerPayloadFull) = .ok tikerRecordFull
    ∧ ("price_change", "p") ∈ requiredKeys
    ∧ (∃ kv ∈ tikerPayloadFull,
        kv.1 = ("price_change", "p").1 ∨ kv.1 = ("price_change", "p").2) :=
  ⟨by decide, by decide,
   decode_all_or_nothing.2.1 tikerPayloadFull tikerRecordFull (by decide)
     ("price_change", "p") (by decide)⟩

/-- Claim C10: `BinanceTiker` deserialization accepts each field under
either its short exchange key or its long semantic name, and never
rejects a payload for carrying extra unrecognised keys — inserting any
unrecognised key anywhere leaves the decode result unchanged, swapping a
field's long name for its alias leaves the decode result unchanged, and
the illustrative payload with the extra keys `e`, `E`, `t` decodes to the
same record as its long-name spelling. -/
theorem decode_alias_unknown_keys :
    (∀ (fs1 fs2 : List (String × Json)) (k : String) (v : Json),
        k ∉ recognizedKeys →
        decodeBinanceTiker (.obj (fs1 ++ (k, v) :: fs2)) =
          decodeBinanceTiker (.obj (fs1 ++ fs2)))
    ∧ (∀ (fs1 fs2 : List (String × Json)) (v : Json) (p : String × String),
        p ∈ requiredKeys →
        decodeBinanceTiker (.obj (fs1 ++ (p.1, v) :: fs2)) =
          decodeBinanceTiker (.obj (fs1 ++ (p.2, v) :: fs2)))
    ∧ decodeBinanceTiker (.obj tikerPayloadFull) = .ok tikerRecordFull
    ∧ decodeBinanceTiker (.obj tikerPayloadLongKeys) = .ok tikerRecordFull := by
  refine ⟨?_, ?_, by decide, by decide⟩
  · intro fs1 fs2 k v hk
    apply decode_congr
    intro p hp
    have hrec := requiredKeys_in_recognized p hp
    exact getField_middle fs1 fs2 k v p.1 p.2
      (fun h => hk (h ▸ hrec.1)) (fun h => hk (h ▸ hrec.2))
  · intro fs1 fs2 v p hp
    apply decode_congr
    intro q hq
    exact getField_swap_mid fs1 fs2 p.1 p.2 v q.1 q.2
      (alias_keys_compatible p hp q hq)

/-- Witness for C10: inserting the unrecognised key `x` in front of the
long-name payload leaves the decode unchanged, and swapping
`price_change` for its alias `p` leaves the decode unchanged. -/
theorem decode_alias_unknown_keys_witness :
    ("x" : String) ∉ recognizedKeys
    ∧ decodeBinanceTiker (.obj ([] ++ ("x", Json.str "1") :: tikerPayloadLongKeys)) =
        decodeBinanceTiker (.obj ([] ++ tikerPayloadLongKeys))
    ∧ ("price_change", "p") ∈ requiredKeys
    ∧ decodeBinanceTiker
          (.obj ([] ++ (("price_change", "p").1, Json.str "10000.19") :: [])) =
        decodeBinanceTiker
          (.obj ([] ++ (("price_change", "p").2, Json.str "10000.19") :: [])) :=
  ⟨by decide,
   decode_alias_unknown_keys.1 [] tikerPayloadLongKeys "x" (Json.str "1") (by decide),
   by decide,
   decode_alias_unknown_keys.2.1 [] [] (Json.str "10000.19") ("price_change", "p")
     (by decide)⟩

/-- Witness for the amended C4: case-insensitivity at
`("ethusdt", "ETHUSDT")` and injectivity applied at the `@tiker`
channel. -/
theorem subscription_id_pure_and_injective_witness :
    (toUpperStr "ethusdt" = toUpperStr "ETHUSDT"
     ∧ ExchangeSub.id ⟨BinanceChannel.TICKERS, "ethusdt"⟩ =
        ExchangeSub.id ⟨BinanceChannel.TICKERS, "ETHUSDT"⟩)
    ∧ ('|' ∉ BinanceChannel.TICKERS.data
       ∧ ExchangeSub.id ⟨BinanceChannel.TICKERS, "ethusdt"⟩ =
          ExchangeSub.id ⟨BinanceChannel.TICKERS, "ETHUSDT"⟩
       ∧ (BinanceChannel.TICKERS = BinanceChannel.TICKERS
          ∧ toUpperStr "ethusdt" = toUpperStr "ETHUSDT")) :=
  ⟨⟨by decide,
    subscription_id_pure_and_injective.1 BinanceChannel.TICKERS "ethusdt" "ETHUSDT"
      (by decide)⟩,
   ⟨by decide, by decide,
    subscription_id_pure_and_injective.2.2 BinanceChannel.TICKERS
      BinanceChannel.TICKERS "ethusdt" "ETHUSDT" (by decide) (by decide)
      (by decide)⟩⟩

lemma interleave_length {α : Type} {xs ys zs : List α}
    (h : Interleave xs ys zs) : zs.length = xs.length + ys.length := by
  induction h with
  | nil => rfl
  | left _ ih => simp [ih]; omega
  | right _ ih => simp [ih]; omega

lemma interleave_mem {α : Type} {xs ys zs : List α} {x : α}
    (h : Interleave xs ys zs) (hx : x ∈ xs ∨ x ∈ ys) : x ∈ zs := by
  induction h with
  | nil => rcases hx with hx | hx <;> simp at hx
  | left _ ih =>
    rcases hx with hx | hx
    · rcases List.mem_cons.mp hx with rfl | hx
      · exact List.mem_cons_self _ _
      · exact List.mem_cons_of_mem _ (ih (.inl hx))
    · exact List.mem_cons_of_mem _ (ih (.inr hx))
  | right _ ih =>
    rcases hx with hx | hx
    · exact List.mem_cons_of_mem _ (ih (.inl hx))
    · rcases List.mem_cons.mp hx with rfl | hx
      · exact List.mem_cons_self _ _
      · exact List.mem_cons_of_mem _ (ih (.inr hx))

lemma interleave_filterMap_length {α β : Type} {f : α → Option β}
    {xs ys zs : List α} (h : Interleave xs ys zs) :
    (zs.filterMap f).length = (xs.filterMap f).length + (ys.filterMap f).length := by
  induction h with
  | nil => rfl
  | @left x _ _ _ _ ih =>
    cases hfx : f x with
    | none => simp [List.filterMap_cons, hfx, ih]
    | some b =>
      simp [List.filterMap_cons, hfx, ih]
      omega
  | @right y _ _ _ _ ih =>
    cases hfy : f y with
    | none => simp [List.filterMap_cons, hfy, ih]
    | some b =>
      simp [List.filterMap_cons, hfy, ih]
      omega

/-- Claim C7: in the merged stream, an error item never terminates the
merge — the attached handler is invoked exactly once per error item (its
invocation log is as long as the number of errors from all sources), all
events after an error item are still yielded, the merged sequence is
exhausted only when every source is (its length is the sum of the source
lengths and every source item reaches the merge). -/
theorem merge_error_resilience :
    ∀ {E A H : Type} (handler : E → H) (s1 s2 s3 m : List (Except E A)),
      Interleave3 s1 s2 s3 m →
      (with_error_handler handler m).2.length =
          (errItems s1).length + (errItems s2).length + (errItems s3).length
      ∧ (∀ (pre post : List (Except E A)) (e : E),
          m = pre ++ .error e :: post →
          (with_error_handler handler m).1 = okItems pre ++ okItems post)
      ∧ m.length = s1.length + s2.length + s3.length
      ∧ (∀ x, x ∈ s1 ∨ x ∈ s2 ∨ x ∈ s3 → x ∈ m) := by
  intro E A H handler s1 s2 s3 m hm
  obtain ⟨m12, h12, h3⟩ := hm
  refine ⟨?_, ?_, ?_, ?_⟩
  · have e3 := interleave_filterMap_length (f := fun x : Except E A =>
      match x with | .ok _ => none | .error e => some e) h3
    have e12 := interleave_filterMap_length (f := fun x : Except E A =>
      match x with | .ok _ => none | .error e => some e) h12
    simp only [with_error_handler, errItems, List.length_map] at *
    omega
  · intro pre post e hpre
    subst hpre
    simp [with_error_handler, okItems, List.filterMap_append,
      List.filterMap_cons]
  · have := interleave_length h12
    have := interleave_length h3
    omega
  · intro x hx
    rcases hx with hx | hx | hx
    · exact interleave_mem h3 (.inl (interleave_mem h12 (.inl hx)))
    · exact interleave_mem h3 (.inl (interleave_mem h12 (.inr hx)))
    · exact interleave_mem h3 (.inr hx)

/-- Three sources for the C7 witness scenario: the first emits a
transport error mid-stream. -/
def mergeSrc1 : List (Except String Nat) := [.ok 1, .error "transport", .ok 2]

/-- Second witness source. -/
def mergeSrc2 : List (Except String Nat) := [.ok 3]

/-- Third witness source. -/
def mergeSrc3 : List (Except String Nat) := [.ok 4]

/-- An arrival-order merge of `mergeSrc1` and `mergeSrc2`. -/
def mergeMid12 : List (Except String Nat) := [.ok 1, .error "transport", .ok 3, .ok 2]

/-- An arrival-order merge of all three witness sources. -/
def mergeAll : List (Except String Nat) :=
  [.ok 1, .error "transport", .ok 3, .ok 4, .ok 2]

lemma mergeMid12_interleaves : Interleave mergeSrc1 mergeSrc2 mergeMid12 :=
  .left (.left (.right (.left .nil)))

lemma mergeAll_interleaves : Interleave mergeMid12 mergeSrc3 mergeAll :=
  .left (.left (.left (.right (.left .nil))))

/-- Witness for C7: the three-source scenario with one mid-stream
transport error — the handler log has exactly one entry and the merged
length equals the sum of the source lengths. -/
theorem merge_error_resilience_witness :
    Interleave3 mergeSrc1 mergeSrc2 mergeSrc3 mergeAll
    ∧ (with_error_handler (fun s : String => s) mergeAll).2.length =
        (errItems mergeSrc1).length + (errItems mergeSrc2).length +
          (errItems mergeSrc3).length
    ∧ mergeAll.length = mergeSrc1.length + mergeSrc2.length + mergeSrc3.length :=
  ⟨⟨mergeMid12, mergeMid12_interleaves, mergeAll_interleaves⟩,
   (merge_error_resilience (fun s : String => s) mergeSrc1 mergeSrc2 mergeSrc3
      mergeAll ⟨mergeMid12, mergeMid12_interleaves, mergeAll_interleaves⟩).1,
   (merge_error_resilience (fun s : String => s) mergeSrc1 mergeSrc2 mergeSrc3
      mergeAll ⟨mergeMid12, mergeMid12_interleaves, mergeAll_interleaves⟩).2.2.1⟩
